import Mathlib

/-!
Verification of rpv, the WOW64 helper layer (`src/c/windows.c`,
`src/c/defines.h`).

A shallow embedding of the three lazily resolved wrappers
`NtQueryInformationProcess`, `NtWow64QueryInformationProcess64` and
`NtWow64ReadVirtualMemory64`, and of the four structure declarations used for
reading the command line of a 64-bit process from a 32-bit one.

Conventions.
* An address is a `Nat`; `NULL` is `0`.
* The three global function pointers form the `Table`; the rest of the process
  memory is a `Memory`, which only the native functions touch.
* `GetModuleHandle`, `GetProcAddress` and the native code behind a function
  pointer are not part of the repository: they are the fields of `Env`.
* Every wrapper returns, besides the new state, the list of external events it
  performed, in program order.
* A call through a NULL function pointer has no defined result in C; the model
  records the call event and yields `Outcome.nullCall`.
* The native code is assumed not to write to the three globals: it gets the
  `Memory` and returns a new one, and the `Table` is out of its reach.
-/

namespace Rpv

/-! ## Machine integers -/

/-- The null pointer constant. -/
def NULL : Nat := 0

/-- Value of an expression stored in a `ULONG` (unsigned 32-bit) parameter. -/
def ULONG (n : Nat) : Nat := n % 2 ^ 32

/-- Value of an expression stored in a `UINT64` (unsigned 64-bit) parameter. -/
def UINT64 (n : Nat) : Nat := n % 2 ^ 64

/-- Value of an expression of type `DWORD` (unsigned 32-bit). -/
def DWORD (n : Nat) : Nat := n % 2 ^ 32

/-- Conversion of a `DWORD` to the signed 32-bit `NTSTATUS` (a `LONG`): the
value with the same 32-bit pattern, as the Windows compilers do it. This is
what `return f(...)` does in `NtWow64ReadVirtualMemory64`, whose function
pointer type returns `DWORD` while the wrapper returns `NTSTATUS`. -/
def DWORD_to_NTSTATUS (d : Nat) : Int :=
  if DWORD d < 2 ^ 31 then (DWORD d : Int) else (DWORD d : Int) - 2 ^ 32

/-! ## State, environment, events -/

/-- The three global function pointers of `windows.c` (lines 34-36). -/
structure Table where
  NtQueryInformationProcessFn : Nat
  NtWow64QueryInformationProcess64Fn : Nat
  NtWow64ReadVirtualMemory64Fn : Nat
  deriving DecidableEq

/-- Initial value of the globals: all three are `NULL`. -/
def Table.initial : Table :=
  { NtQueryInformationProcessFn := NULL
    NtWow64QueryInformationProcess64Fn := NULL
    NtWow64ReadVirtualMemory64Fn := NULL }

/-- Process memory other than the three globals (address to content). -/
abbrev Memory := Nat → Nat

/-- Arguments of the two query wrappers, in declaration order. -/
structure QueryArgs where
  ph : Nat
  piClass : Nat
  pi : Nat
  piLen : Nat
  retLen : Nat
  deriving DecidableEq

/-- Arguments of `NtWow64ReadVirtualMemory64`, in declaration order. -/
structure ReadArgs where
  ph : Nat
  BaseAddress : Nat
  buffer : Nat
  bufferLen : Nat
  retLen : Nat
  deriving DecidableEq

/-- External actions performed by a wrapper. -/
inductive Event where
  | GetModuleHandle (lpModuleName : String)
  | GetProcAddress (hModule : Nat) (lpProcName : String)
  | call (fn : Nat) (args : List Nat)
  deriving DecidableEq

/-- How a wrapper call ends. -/
inductive Outcome where
  | returned (status : Int)
  | nullCall
  deriving DecidableEq

/-- The world outside `windows.c`: the loader and the native code reached
through a function pointer. `callQuery fn a m` is the `NTSTATUS` returned by
the code at address `fn` (of type `NtQueryInformationProcessFn_T`, which is
also the shape of `NtWow64QueryInformationProcess64Fn_T`) and the memory it
leaves; `callRead fn a m` is the same for `NtWow64ReadVirtualMemory64Fn_T`,
whose return type is `DWORD`. -/
structure Env where
  GetModuleHandle : String → Nat
  GetProcAddress : Nat → String → Nat
  callQuery : Nat → QueryArgs → Memory → Int × Memory
  callRead : Nat → ReadArgs → Memory → Nat × Memory

/-- Program state: the globals and the rest of memory. -/
structure State where
  table : Table
  mem : Memory

/-- What one wrapper call produces. -/
structure Result where
  state : State
  trace : List Event
  outcome : Outcome

/-- The arguments as handed to a function of type
`NtQueryInformationProcessFn_T`: `ProcessInformationLength` is a `ULONG`. -/
def QueryArgs.passed (a : QueryArgs) : QueryArgs :=
  { ph := a.ph, piClass := a.piClass, pi := a.pi, piLen := ULONG a.piLen, retLen := a.retLen }

/-- The arguments as handed to a function of type
`NtWow64ReadVirtualMemory64Fn_T`: `BaseAddress` and `BufferLength` are
`UINT64`. -/
def ReadArgs.passed (a : ReadArgs) : ReadArgs :=
  { ph := a.ph, BaseAddress := UINT64 a.BaseAddress, buffer := a.buffer,
    bufferLen := UINT64 a.bufferLen, retLen := a.retLen }

/-- Positional argument list of a query call. -/
def QueryArgs.toList (a : QueryArgs) : List Nat := [a.ph, a.piClass, a.pi, a.piLen, a.retLen]

/-- Positional argument list of a read call. -/
def ReadArgs.toList (a : ReadArgs) : List Nat :=
  [a.ph, a.BaseAddress, a.buffer, a.bufferLen, a.retLen]

/-- The expression `GetProcAddress(GetModuleHandle("ntdll.dll"), name)`. -/
def resolve (env : Env) (name : String) : Nat :=
  env.GetProcAddress (env.GetModuleHandle "ntdll.dll") name

/-- The events of `GetProcAddress(GetModuleHandle("ntdll.dll"), name)`. -/
def resolveTrace (env : Env) (name : String) : List Event :=
  [Event.GetModuleHandle "ntdll.dll",
   Event.GetProcAddress (env.GetModuleHandle "ntdll.dll") name]

/-- The statement `return fn(ph, piClass, pi, piLen, retLen);` for a pointer
of type `NtQueryInformationProcessFn_T`, after the events `pre`. -/
def returnQuery (env : Env) (t : Table) (m : Memory) (pre : List Event) (fn : Nat)
    (a : QueryArgs) : Result :=
  if fn = NULL then
    { state := ⟨t, m⟩, trace := pre ++ [Event.call fn a.passed.toList], outcome := Outcome.nullCall }
  else
    { state := ⟨t, (env.callQuery fn a.passed m).2⟩
      trace := pre ++ [Event.call fn a.passed.toList]
      outcome := Outcome.returned (env.callQuery fn a.passed m).1 }

/-- The statement `return fn(ph, BaseAddress, buffer, bufferLen, retLen);` for
a pointer of type `NtWow64ReadVirtualMemory64Fn_T` in a function returning
`NTSTATUS`, after the events `pre`. -/
def returnRead (env : Env) (t : Table) (m : Memory) (pre : List Event) (fn : Nat)
    (a : ReadArgs) : Result :=
  if fn = NULL then
    { state := ⟨t, m⟩, trace := pre ++ [Event.call fn a.passed.toList], outcome := Outcome.nullCall }
  else
    { state := ⟨t, (env.callRead fn a.passed m).2⟩
      trace := pre ++ [Event.call fn a.passed.toList]
      outcome := Outcome.returned (DWORD_to_NTSTATUS (env.callRead fn a.passed m).1) }

/-- `NtQueryInformationProcess` (windows.c, lines 38-52). -/
def NtQueryInformationProcess (env : Env) (s : State) (a : QueryArgs) : Result :=
  if s.table.NtQueryInformationProcessFn = NULL then
    let t := { s.table with
      NtQueryInformationProcessFn := resolve env "NtQueryInformationProcess" }
    returnQuery env t s.mem (resolveTrace env "NtQueryInformationProcess")
      t.NtQueryInformationProcessFn a
  else
    returnQuery env s.table s.mem [] s.table.NtQueryInformationProcessFn a

/-- `NtWow64QueryInformationProcess64` (windows.c, lines 54-68). -/
def NtWow64QueryInformationProcess64 (env : Env) (s : State) (a : QueryArgs) : Result :=
  if s.table.NtWow64QueryInformationProcess64Fn = NULL then
    let t := { s.table with
      NtWow64QueryInformationProcess64Fn := resolve env "NtWow64QueryInformationProcess64" }
    returnQuery env t s.mem (resolveTrace env "NtWow64QueryInformationProcess64")
      t.NtWow64QueryInformationProcess64Fn a
  else
    returnQuery env s.table s.mem [] s.table.NtWow64QueryInformationProcess64Fn a

/-- `NtWow64ReadVirtualMemory64` (windows.c, lines 70-84). -/
def NtWow64ReadVirtualMemory64 (env : Env) (s : State) (a : ReadArgs) : Result :=
  if s.table.NtWow64ReadVirtualMemory64Fn = NULL then
    let t := { s.table with
      NtWow64ReadVirtualMemory64Fn := resolve env "NtWow64ReadVirtualMemory64" }
    returnRead env t s.mem (resolveTrace env "NtWow64ReadVirtualMemory64")
      t.NtWow64ReadVirtualMemory64Fn a
  else
    returnRead env s.table s.mem [] s.table.NtWow64ReadVirtualMemory64Fn a

/-! ## Uniform view of the three wrappers -/

/-- Names of the three wrappers. -/
inductive Wrapper where
  | NtQueryInformationProcess
  | NtWow64QueryInformationProcess64
  | NtWow64ReadVirtualMemory64
  deriving DecidableEq

/-- The global that caches the address used by a wrapper. -/
def Wrapper.entry : Wrapper → Table → Nat
  | .NtQueryInformationProcess, t => t.NtQueryInformationProcessFn
  | .NtWow64QueryInformationProcess64, t => t.NtWow64QueryInformationProcess64Fn
  | .NtWow64ReadVirtualMemory64, t => t.NtWow64ReadVirtualMemory64Fn

/-- The symbol a wrapper asks `GetProcAddress` for. -/
def Wrapper.symbol : Wrapper → String
  | .NtQueryInformationProcess => "NtQueryInformationProcess"
  | .NtWow64QueryInformationProcess64 => "NtWow64QueryInformationProcess64"
  | .NtWow64ReadVirtualMemory64 => "NtWow64ReadVirtualMemory64"

/-- One call of one wrapper with its arguments. -/
inductive WrapperCall where
  | NtQueryInformationProcess (a : QueryArgs)
  | NtWow64QueryInformationProcess64 (a : QueryArgs)
  | NtWow64ReadVirtualMemory64 (a : ReadArgs)
  deriving DecidableEq

/-- Which wrapper a call addresses. -/
def WrapperCall.wrapper : WrapperCall → Wrapper
  | .NtQueryInformationProcess _ => .NtQueryInformationProcess
  | .NtWow64QueryInformationProcess64 _ => .NtWow64QueryInformationProcess64
  | .NtWow64ReadVirtualMemory64 _ => .NtWow64ReadVirtualMemory64

/-- The positional arguments the native function receives for a call. -/
def WrapperCall.passedArgs : WrapperCall → List Nat
  | .NtQueryInformationProcess a => a.passed.toList
  | .NtWow64QueryInformationProcess64 a => a.passed.toList
  | .NtWow64ReadVirtualMemory64 a => a.passed.toList

/-- Execute one wrapper call. -/
def exec (env : Env) (s : State) : WrapperCall → Result
  | .NtQueryInformationProcess a => Rpv.NtQueryInformationProcess env s a
  | .NtWow64QueryInformationProcess64 a => Rpv.NtWow64QueryInformationProcess64 env s a
  | .NtWow64ReadVirtualMemory64 a => Rpv.NtWow64ReadVirtualMemory64 env s a

/-- Execute a sequence of wrapper calls in order. Execution stops at the first
call through a NULL pointer (the process does not survive it). The trace is
the concatenation of the traces of the executed calls. -/
def run (env : Env) (s : State) : List WrapperCall → State × List Event
  | [] => (s, [])
  | c :: cs =>
    match (exec env s c).outcome with
    | Outcome.nullCall => ((exec env s c).state, (exec env s c).trace)
    | Outcome.returned _ =>
      ((run env (exec env s c).state cs).1,
       (exec env s c).trace ++ (run env (exec env s c).state cs).2)

/-- Whether an event is a `GetProcAddress` for the given symbol. -/
def Event.isLookupOf (name : String) : Event → Bool
  | .GetProcAddress _ n => n == name
  | _ => false

/-- Whether an event is a call through a function pointer. -/
def Event.isCall : Event → Bool
  | .call _ _ => true
  | _ => false

/-- Number of `GetProcAddress` requests for a symbol in a trace. -/
def lookupCount (name : String) (tr : List Event) : Nat :=
  tr.countP (Event.isLookupOf name)

/-- Number of `GetProcAddress` requests of any symbol in a trace. -/
def totalLookups (tr : List Event) : Nat :=
  tr.countP (fun e => match e with | .GetProcAddress _ _ => true | _ => false)

/-! ## Structure layout (`defines.h`) -/

mutual
/-- The C types that occur in `defines.h`, plus a pointer type so that the
layout function has something that depends on the pointer width. -/
inductive CType where
  | BYTE
  | USHORT
  | ULONG64
  | NTSTATUS
  | KPRIORITY
  | PVOID
  | array (elem : CType) (n : Nat)
  | struct (fields : Fields)
/-- The member list of a `struct`, in declaration order. -/
inductive Fields where
  | nil
  | cons (name : String) (type : CType) (rest : Fields)
end

/-- Round `off` up to a multiple of `a`. -/
def alignUp (off a : Nat) : Nat := (off + a - 1) / a * a

mutual
/-- Modelled from the spec: the Windows typedefs behind the scalar types are
not part of the repository (BYTE is 1 byte, USHORT 2, ULONG64 8, NTSTATUS and
KPRIORITY are 4-byte signed integers); a scalar is aligned to its own size, an
array to its element, a struct to its widest member. `p` is the pointer width
in bytes. -/
def CType.alignof (p : Nat) : CType → Nat
  | .BYTE => 1
  | .USHORT => 2
  | .ULONG64 => 8
  | .NTSTATUS => 4
  | .KPRIORITY => 4
  | .PVOID => p
  | .array e _ => e.alignof p
  | .struct fs => fs.maxAlign p
/-- Alignment of the widest member of a member list. -/
def Fields.maxAlign (p : Nat) : Fields → Nat
  | .nil => 1
  | .cons _ t rest => max (t.alignof p) (rest.maxAlign p)
end

mutual
/-- Modelled from the spec: size in bytes of a C type under the Windows layout
rule (scalar sizes as in `CType.alignof`; a struct ends at the next multiple
of its alignment after its last member). -/
def CType.sizeof (p : Nat) : CType → Nat
  | .BYTE => 1
  | .USHORT => 2
  | .ULONG64 => 8
  | .NTSTATUS => 4
  | .KPRIORITY => 4
  | .PVOID => p
  | .array e n => e.sizeof p * n
  | .struct fs => alignUp (fs.endFrom p 0) (fs.maxAlign p)
/-- Offset just past the last member when the member list starts to be laid
out at offset `off`: every member is placed at the next multiple of its
alignment. -/
def Fields.endFrom (p : Nat) : Fields → Nat → Nat
  | .nil, off => off
  | .cons _ t rest, off => rest.endFrom p (alignUp off (t.alignof p) + t.sizeof p)
end

/-- Offset of the member called `name` when the member list starts to be laid
out at offset `off`. -/
def Fields.offsetFrom (p : Nat) (name : String) : Fields → Nat → Option Nat
  | .nil, _ => none
  | .cons n t rest, off =>
    if n = name then some (alignUp off (t.alignof p))
    else rest.offsetFrom p name (alignUp off (t.alignof p) + t.sizeof p)

/-- The type of the member called `name`. -/
def Fields.typeOf (name : String) : Fields → Option CType
  | .nil => none
  | .cons n t rest => if n = name then some t else rest.typeOf name

/-- The C `offsetof(type, name)`, for a struct type. -/
def CType.offsetof (p : Nat) (name : String) : CType → Option Nat
  | .struct fs => fs.offsetFrom p name 0
  | _ => none

/-- The type of member `name` of a struct type. -/
def CType.member (name : String) : CType → Option CType
  | .struct fs => fs.typeOf name
  | _ => none

/-- `PROCESS_BASIC_INFORMATION_WOW64` (defines.h, lines 7-15). -/
def PROCESS_BASIC_INFORMATION_WOW64 : CType :=
  .struct <|
    .cons "ExitStatus" .NTSTATUS <|
    .cons "PebBaseAddress" .ULONG64 <|
    .cons "AffinityMask" .ULONG64 <|
    .cons "BasePriority" .KPRIORITY <|
    .cons "UniqueProcessId" .ULONG64 <|
    .cons "InheritedFromUniqueProcessId" .ULONG64 .nil

/-- `UNICODE_STRING_WOW64` (defines.h, lines 17-21). -/
def UNICODE_STRING_WOW64 : CType :=
  .struct <|
    .cons "Length" .USHORT <|
    .cons "MaximumLength" .USHORT <|
    .cons "Buffer" .ULONG64 .nil

/-- `RTL_USER_PROCESS_PARAMETERS_WOW64` (defines.h, lines 23-29). -/
def RTL_USER_PROCESS_PARAMETERS_WOW64 : CType :=
  .struct <|
    .cons "Reserved1" (.array .BYTE 16) <|
    .cons "Reserved2" (.array .ULONG64 10) <|
    .cons "ImagePathName" UNICODE_STRING_WOW64 <|
    .cons "CommandLine" UNICODE_STRING_WOW64 .nil

/-- `PEB64` (defines.h, lines 31-36). -/
def PEB64 : CType :=
  .struct <|
    .cons "Reserved1" (.array .BYTE 4) <|
    .cons "Reserved2" (.array .ULONG64 2) <|
    .cons "LdrData" .ULONG64 <|
    .cons "ProcessParameters" .ULONG64 .nil

/-- A struct with a pointer member, for comparison: the native-width string
descriptor `{ USHORT; USHORT; PVOID }`. It is not declared in `defines.h`. -/
def nativeStringDescriptor : CType :=
  .struct <|
    .cons "Length" .USHORT <|
    .cons "MaximumLength" .USHORT <|
    .cons "Buffer" .PVOID .nil

/-- The address a call goes through: the cached one, or the fresh lookup
result when the cache entry is NULL. -/
def target (env : Env) (s : State) (c : WrapperCall) : Nat :=
  if c.wrapper.entry s.table = NULL then resolve env c.wrapper.symbol
  else c.wrapper.entry s.table

/-- A loader that knows the three symbols, and native code that reports
success and writes the requested length at `retLen`. -/
def sampleEnv : Env where
  GetModuleHandle := fun _ => 0x77000000
  GetProcAddress := fun h name =>
    if name = "NtQueryInformationProcess" then h + 0x100
    else if name = "NtWow64QueryInformationProcess64" then h + 0x200
    else if name = "NtWow64ReadVirtualMemory64" then h + 0x300
    else NULL
  callQuery := fun _ a m => (0, fun x => if x = a.retLen then a.piLen else m x)
  callRead := fun _ a m => (0, fun x => if x = a.retLen then a.bufferLen else m x)

/-- The state at program start: empty table, zeroed memory. -/
def initialState : State := ⟨Table.initial, fun _ => 0⟩

/-- A state in which the read primitive is already cached at `0x5000`. -/
def cachedState : State :=
  ⟨{ Table.initial with NtWow64ReadVirtualMemory64Fn := 0x5000 }, fun _ => 0⟩

/-- Sample arguments of a cross-bitness read: 16 bytes at `2 ^ 40`. -/
def sampleRead : ReadArgs :=
  { ph := 4, BaseAddress := 2 ^ 40, buffer := 0x2000, bufferLen := 16, retLen := 0x3000 }

/-- Sample arguments of a basic-information query. -/
def sampleQuery : QueryArgs :=
  { ph := 4, piClass := 0, pi := 0x2000, piLen := 48, retLen := 0x3000 }

/-- A loader on a system where none of the three symbols exists. -/
def missingEnv : Env where
  GetModuleHandle := fun _ => 0x77000000
  GetProcAddress := fun _ _ => NULL
  callQuery := fun _ _ m => (0, m)
  callRead := fun _ _ m => (0, m)

/-- The failure kinds of the extraction. -/
inductive ExtractError where
  | SymbolNotFoundError
  | QueryError
  | AccessError
  | PartialReadError
  | MalformedDescriptorError
  deriving DecidableEq

/-- The content of a `UNICODE_STRING_WOW64` (defines.h, lines 17-21). -/
structure StringDescriptor where
  Length : Nat
  MaximumLength : Nat
  Buffer : Nat
  deriving DecidableEq

/-- What the last hop of the extraction produces: the remote reads it issued
(address, length) and its result. -/
structure HopResult where
  reads : List (Nat × Nat)
  result : Except ExtractError String

/-- Modelled from the spec: the last hop of `CommandLineExtractor` (validate
the descriptor, then read exactly `Length` bytes at `Buffer` and decode them
as UTF-16) is code of the repository that is not among its C sources. `read`
is the `RemoteMemoryReader` (exactly the requested bytes or a failure) and
`decode` the UTF-16 decoder. -/
def readCommandLineText (read : Nat → Nat → Except ExtractError (List Nat))
    (decode : List Nat → String) (d : StringDescriptor) : HopResult :=
  if d.Length ≤ d.MaximumLength ∧ d.Buffer ≠ 0 then
    match read d.Buffer d.Length with
    | .ok bytes =>
      if bytes.length = d.Length then ⟨[(d.Buffer, d.Length)], .ok (decode bytes)⟩
      else ⟨[(d.Buffer, d.Length)], .error .PartialReadError⟩
    | .error e => ⟨[(d.Buffer, d.Length)], .error e⟩
  else ⟨[], .error .MalformedDescriptorError⟩

/-- A reader over a remote memory that holds zero bytes everywhere. -/
def zeroReader : Nat → Nat → Except ExtractError (List Nat) :=
  fun _ len => .ok (List.replicate len 0)

/-- A stand-in decoder: one character per UTF-16 code unit, low byte first. -/
def sampleDecode : List Nat → String
  | lo :: hi :: rest => String.mk [Char.ofNat (lo + 256 * hi)] ++ sampleDecode rest
  | _ => ""

/-! ## Facts about one wrapper call and about runs -/

theorem exec_trace (env : Env) (s : State) (c : WrapperCall) :
    (exec env s c).trace =
      (if c.wrapper.entry s.table = NULL then resolveTrace env c.wrapper.symbol else [])
        ++ [Event.call (target env s c) c.passedArgs] := by
  cases c <;>
    simp only [exec, Rpv.NtQueryInformationProcess, Rpv.NtWow64QueryInformationProcess64,
      Rpv.NtWow64ReadVirtualMemory64, returnQuery, returnRead, target, WrapperCall.wrapper,
      Wrapper.entry, Wrapper.symbol, WrapperCall.passedArgs] <;>
    split <;> (try split) <;> simp_all

theorem exec_entry (env : Env) (s : State) (c : WrapperCall) (w : Wrapper) :
    w.entry (exec env s c).state.table =
      if w = c.wrapper ∧ w.entry s.table = NULL then resolve env w.symbol
      else w.entry s.table := by
  cases c <;> cases w <;>
    simp only [exec, Rpv.NtQueryInformationProcess, Rpv.NtWow64QueryInformationProcess64,
      Rpv.NtWow64ReadVirtualMemory64, returnQuery, returnRead, WrapperCall.wrapper,
      Wrapper.entry, Wrapper.symbol] <;>
    split <;> (try split) <;> simp_all

theorem exec_outcome_nullCall (env : Env) (s : State) (c : WrapperCall) :
    (exec env s c).outcome = Outcome.nullCall ↔ target env s c = NULL := by
  cases c <;>
    simp only [exec, Rpv.NtQueryInformationProcess, Rpv.NtWow64QueryInformationProcess64,
      Rpv.NtWow64ReadVirtualMemory64, returnQuery, returnRead, target, WrapperCall.wrapper,
      Wrapper.entry, Wrapper.symbol] <;>
    split <;> (try split) <;> simp_all

theorem symbol_injective (w w' : Wrapper) (h : w.symbol = w'.symbol) : w = w' := by
  cases w <;> cases w' <;> first | rfl | (exact absurd h (by decide))

theorem lookupCount_exec (env : Env) (s : State) (c : WrapperCall) (w : Wrapper) :
    lookupCount w.symbol (exec env s c).trace =
      if w = c.wrapper ∧ w.entry s.table = NULL then 1 else 0 := by
  rw [exec_trace]
  by_cases hw : w = c.wrapper
  · subst hw
    by_cases h0 : c.wrapper.entry s.table = NULL
    · simp [h0, lookupCount, resolveTrace, Event.isLookupOf, List.countP_cons]
    · simp [h0, lookupCount, Event.isLookupOf, List.countP_cons]
  · have hne : ¬ c.wrapper.symbol = w.symbol := fun h => hw (symbol_injective _ _ h).symm
    by_cases h0 : c.wrapper.entry s.table = NULL
    · simp [h0, hw, hne, lookupCount, resolveTrace, Event.isLookupOf, List.countP_cons]
    · simp [h0, hw, lookupCount, Event.isLookupOf, List.countP_cons]

theorem lookupCount_append (name : String) (xs ys : List Event) :
    lookupCount name (xs ++ ys) = lookupCount name xs + lookupCount name ys := by
  simp [lookupCount, List.countP_append]

/-- A non-NULL entry is the same after any sequence of calls. -/
theorem run_entry_of_ne_null (env : Env) (w : Wrapper) (cs : List WrapperCall) :
    ∀ s : State, w.entry s.table ≠ NULL → w.entry (run env s cs).1.table = w.entry s.table := by
  induction cs with
  | nil => intro s _; rfl
  | cons c cs ih =>
    intro s h
    have hstep : w.entry (exec env s c).state.table = w.entry s.table := by
      rw [exec_entry]; simp [h]
    simp only [run]
    split
    · exact hstep
    · rw [ih _ (by rw [hstep]; exact h), hstep]

/-- Calls to the other wrappers leave an entry as it is. -/
theorem run_entry_of_not_called (env : Env) (w : Wrapper) (cs : List WrapperCall) :
    ∀ s : State, (∀ c ∈ cs, c.wrapper ≠ w) →
      w.entry (run env s cs).1.table = w.entry s.table := by
  induction cs with
  | nil => intro s _; rfl
  | cons c cs ih =>
    intro s h
    have hc : w ≠ c.wrapper := fun e => h c (List.mem_cons_self _ _) e.symm
    have hstep : w.entry (exec env s c).state.table = w.entry s.table := by
      rw [exec_entry]; simp [hc]
    simp only [run]
    split
    · exact hstep
    · rw [ih _ (fun c' hc' => h c' (List.mem_cons_of_mem _ hc')), hstep]

/-- No lookup of a symbol whose entry is already non-NULL. -/
theorem run_lookupCount_of_ne_null (env : Env) (w : Wrapper) (cs : List WrapperCall) :
    ∀ s : State, w.entry s.table ≠ NULL → lookupCount w.symbol (run env s cs).2 = 0 := by
  induction cs with
  | nil => intro s _; rfl
  | cons c cs ih =>
    intro s h
    have hstep : w.entry (exec env s c).state.table = w.entry s.table := by
      rw [exec_entry]; simp [h]
    have hcount : lookupCount w.symbol (exec env s c).trace = 0 := by
      rw [lookupCount_exec]; simp [h]
    simp only [run]
    split
    · exact hcount
    · rw [lookupCount_append, hcount, ih _ (by rw [hstep]; exact h)]

/-- A symbol that the loader finds is looked up at most once. -/
theorem run_lookupCount_le_one (env : Env) (w : Wrapper) (hr : resolve env w.symbol ≠ NULL)
    (cs : List WrapperCall) :
    ∀ s : State, lookupCount w.symbol (run env s cs).2 ≤ 1 := by
  induction cs with
  | nil => intro s; simp [run, lookupCount]
  | cons c cs ih =>
    intro s
    have hcount := lookupCount_exec env s c w
    simp only [run]
    split
    · rw [hcount]; split <;> omega
    · rw [lookupCount_append, hcount]
      by_cases hw : w = c.wrapper ∧ w.entry s.table = NULL
      · have hent : w.entry (exec env s c).state.table ≠ NULL := by
          rw [exec_entry, if_pos hw]; exact hr
        rw [run_lookupCount_of_ne_null env w cs _ hent, if_pos hw]
      · simp only [hw, if_false]
        have := ih (exec env s c).state
        omega

theorem lookupCount_pos_of_mem (env : Env) (name : String) (tr : List Event)
    (h : Event.GetProcAddress (env.GetModuleHandle "ntdll.dll") name ∈ tr) :
    0 < lookupCount name tr := by
  unfold lookupCount
  rw [List.countP_pos_iff]
  exact ⟨_, h, by simp [Event.isLookupOf]⟩

/-- C1: a wrapper whose cache entry is non-NULL performs no symbol lookup and
calls exactly the cached address; a wrapper whose entry is NULL performs one
lookup in ntdll.dll, stores the result in its entry, and then calls through
it; and in any sequence of calls, a symbol whose lookup succeeds and that is
looked up at all is looked up exactly once. -/
theorem C1_lazy_lookup_cached (env : Env) (s : State) (c : WrapperCall) :
    (c.wrapper.entry s.table ≠ NULL →
      (exec env s c).trace = [Event.call (c.wrapper.entry s.table) c.passedArgs] ∧
      totalLookups (exec env s c).trace = 0) ∧
    (c.wrapper.entry s.table = NULL →
      (exec env s c).trace =
        [Event.GetModuleHandle "ntdll.dll",
         Event.GetProcAddress (env.GetModuleHandle "ntdll.dll") c.wrapper.symbol,
         Event.call (resolve env c.wrapper.symbol) c.passedArgs] ∧
      c.wrapper.entry (exec env s c).state.table = resolve env c.wrapper.symbol) ∧
    (∀ (cs : List WrapperCall) (w : Wrapper), resolve env w.symbol ≠ NULL →
      Event.GetProcAddress (env.GetModuleHandle "ntdll.dll") w.symbol ∈ (run env s cs).2 →
      lookupCount w.symbol (run env s cs).2 = 1) := by
  refine ⟨fun h => ?_, fun h => ?_, fun cs w hr hmem => ?_⟩
  · rw [exec_trace]
    simp [h, target, totalLookups]
  · rw [exec_trace, exec_entry]
    simp [h, target, resolveTrace]
  · have h1 := run_lookupCount_le_one env w hr cs s
    have h2 := lookupCount_pos_of_mem env _ _ hmem
    omega

/-- C1 at a concrete run: three reads from the initial state look the read
symbol up once. -/
theorem C1_lazy_lookup_cached_witness :
    resolve sampleEnv Wrapper.NtWow64ReadVirtualMemory64.symbol ≠ NULL ∧
    lookupCount Wrapper.NtWow64ReadVirtualMemory64.symbol
      (run sampleEnv initialState
        [.NtWow64ReadVirtualMemory64 sampleRead, .NtQueryInformationProcess sampleQuery,
         .NtWow64ReadVirtualMemory64 sampleRead]).2 = 1 :=
  ⟨by decide,
   (C1_lazy_lookup_cached sampleEnv initialState (.NtWow64ReadVirtualMemory64 sampleRead)).2.2
     [.NtWow64ReadVirtualMemory64 sampleRead, .NtQueryInformationProcess sampleQuery,
      .NtWow64ReadVirtualMemory64 sampleRead]
     Wrapper.NtWow64ReadVirtualMemory64 (by decide) (by decide)⟩

/-- C2: a wrapper call leaves the entries of the other two wrappers as they
were, leaves the whole table as it was when its own entry is non-NULL, and
otherwise sets its own entry to the lookup result; so no sequence of calls
changes a non-NULL entry, and a sequence that never calls a wrapper leaves
that wrapper's entry as it was. -/
theorem C2_table_frame (env : Env) (s : State) (c : WrapperCall) :
    (∀ w : Wrapper, w ≠ c.wrapper → w.entry (exec env s c).state.table = w.entry s.table) ∧
    (c.wrapper.entry s.table ≠ NULL → (exec env s c).state.table = s.table) ∧
    (c.wrapper.entry s.table = NULL →
      c.wrapper.entry (exec env s c).state.table = resolve env c.wrapper.symbol) ∧
    (∀ (cs : List WrapperCall) (w : Wrapper), w.entry s.table ≠ NULL →
      w.entry (run env s cs).1.table = w.entry s.table) ∧
    (∀ (cs : List WrapperCall) (w : Wrapper), (∀ c' ∈ cs, c'.wrapper ≠ w) →
      w.entry (run env s cs).1.table = w.entry s.table) := by
  refine ⟨fun w hw => ?_, fun h => ?_, fun h => ?_, fun cs w h => ?_, fun cs w h => ?_⟩
  · rw [exec_entry]; simp [hw]
  · have hall : ∀ w : Wrapper, w.entry (exec env s c).state.table = w.entry s.table := by
      intro w
      rw [exec_entry]
      by_cases hw : w = c.wrapper
      · subst hw; simp [h]
      · simp [hw]
    have h1 := hall .NtQueryInformationProcess
    have h2 := hall .NtWow64QueryInformationProcess64
    have h3 := hall .NtWow64ReadVirtualMemory64
    simp only [Wrapper.entry] at h1 h2 h3
    cases hT : (exec env s c).state.table
    cases hS : s.table
    simp_all
  · rw [exec_entry]; simp [h]
  · exact run_entry_of_ne_null env w cs s h
  · exact run_entry_of_not_called env w cs s h

/-- C2 at a concrete run: a cached read entry survives calls to all three
wrappers. -/
theorem C2_table_frame_witness :
    Wrapper.NtWow64ReadVirtualMemory64.entry cachedState.table ≠ NULL ∧
    Wrapper.NtWow64ReadVirtualMemory64.entry
      (run sampleEnv cachedState
        [.NtQueryInformationProcess sampleQuery, .NtWow64ReadVirtualMemory64 sampleRead,
         .NtWow64QueryInformationProcess64 sampleQuery]).1.table = 0x5000 :=
  ⟨by decide,
   (C2_table_frame sampleEnv cachedState (.NtWow64ReadVirtualMemory64 sampleRead)).2.2.2.1
     [.NtQueryInformationProcess sampleQuery, .NtWow64ReadVirtualMemory64 sampleRead,
      .NtWow64QueryInformationProcess64 sampleQuery]
     Wrapper.NtWow64ReadVirtualMemory64 (by decide)⟩

theorem exec_null_lookup (env : Env) (s : State) (c : WrapperCall)
    (h0 : c.wrapper.entry s.table = NULL) (hr : resolve env c.wrapper.symbol = NULL) :
    (exec env s c).state.table = s.table ∧ (exec env s c).state.mem = s.mem := by
  cases hS : s.table
  cases c <;>
    simp_all [exec, Rpv.NtQueryInformationProcess, Rpv.NtWow64QueryInformationProcess64,
      Rpv.NtWow64ReadVirtualMemory64, returnQuery, returnRead, WrapperCall.wrapper,
      Wrapper.entry, Wrapper.symbol]

/-- C3 fails on the code: with an empty table and a loader that finds nothing,
`NtQueryInformationProcess` returns no status at all and does call through
the NULL pointer. -/
theorem C3_symbol_not_found_counterexample :
    Wrapper.NtQueryInformationProcess.entry initialState.table = NULL ∧
    resolve missingEnv Wrapper.NtQueryInformationProcess.symbol = NULL ∧
    (¬ ∃ status, (Rpv.NtQueryInformationProcess missingEnv initialState sampleQuery).outcome
        = Outcome.returned status) ∧
    Event.call NULL [4, 0, 0x2000, 48, 0x3000]
      ∈ (Rpv.NtQueryInformationProcess missingEnv initialState sampleQuery).trace := by
  refine ⟨by decide, by decide, ?_, by decide⟩
  rintro ⟨st, h⟩
  have : (Rpv.NtQueryInformationProcess missingEnv initialState sampleQuery).outcome
      = Outcome.nullCall := by decide
  rw [this] at h
  cases h

/-- C3, amended: when the cache entry is NULL and the lookup returns NULL, the
wrapper performs the lookup, then calls through the NULL pointer; it returns
no status, and table and memory are as before the call. -/
theorem C3_null_lookup_calls_null (env : Env) (s : State) (c : WrapperCall)
    (h0 : c.wrapper.entry s.table = NULL) (hr : resolve env c.wrapper.symbol = NULL) :
    (exec env s c).trace =
      [Event.GetModuleHandle "ntdll.dll",
       Event.GetProcAddress (env.GetModuleHandle "ntdll.dll") c.wrapper.symbol,
       Event.call NULL c.passedArgs] ∧
    (exec env s c).outcome = Outcome.nullCall ∧
    (exec env s c).state.table = s.table ∧
    (exec env s c).state.mem = s.mem := by
  refine ⟨?_, ?_, exec_null_lookup env s c h0 hr⟩
  · rw [exec_trace]; simp [h0, hr, target, resolveTrace]
  · rw [exec_outcome_nullCall]; simp [h0, hr, target]

/-- C3 amended, at a concrete call of the read wrapper. -/
theorem C3_null_lookup_calls_null_witness :
    Wrapper.NtWow64ReadVirtualMemory64.entry initialState.table = NULL ∧
    resolve missingEnv Wrapper.NtWow64ReadVirtualMemory64.symbol = NULL ∧
    (exec missingEnv initialState (.NtWow64ReadVirtualMemory64 sampleRead)).outcome
      = Outcome.nullCall :=
  ⟨by decide, by decide,
   (C3_null_lookup_calls_null missingEnv initialState (.NtWow64ReadVirtualMemory64 sampleRead)
     (by decide) (by decide)).2.1⟩

theorem queryArgs_passed_eq (a : QueryArgs) (h : a.piLen < 2 ^ 32) : a.passed = a := by
  cases a
  simp only [QueryArgs.passed, ULONG] at *
  rw [Nat.mod_eq_of_lt h]

theorem readArgs_passed_eq (a : ReadArgs) (h1 : a.BaseAddress < 2 ^ 64)
    (h2 : a.bufferLen < 2 ^ 64) : a.passed = a := by
  cases a
  simp only [ReadArgs.passed, UINT64] at *
  rw [Nat.mod_eq_of_lt h1, Nat.mod_eq_of_lt h2]

theorem DWORD_to_NTSTATUS_emod (d : Nat) :
    DWORD_to_NTSTATUS d % 2 ^ 32 = (DWORD d : Int) := by
  unfold DWORD_to_NTSTATUS
  have : DWORD d < 2 ^ 32 := Nat.mod_lt _ (by norm_num)
  split <;> omega

/-- C5: with in-range arguments and a non-NULL resolved function, each wrapper
makes exactly one call through a function pointer, to the resolved function,
with the caller's arguments unchanged and in the same positions (for the read
wrapper `BaseAddress` and `bufferLen` are any values below `2 ^ 64`), returns
that call's result (for the read wrapper: the `NTSTATUS` with the bit pattern
of the returned `DWORD`), and leaves memory as the native function left it,
so that what was written at `retLen` is what the caller finds there. -/
theorem C5_arguments_and_result_passed_through (env : Env) (s : State) :
    (∀ a : QueryArgs, a.piLen < 2 ^ 32 →
      target env s (.NtQueryInformationProcess a) ≠ NULL →
      (Rpv.NtQueryInformationProcess env s a).trace.filter Event.isCall =
        [Event.call (target env s (.NtQueryInformationProcess a))
          [a.ph, a.piClass, a.pi, a.piLen, a.retLen]] ∧
      (Rpv.NtQueryInformationProcess env s a).outcome = Outcome.returned
        (env.callQuery (target env s (.NtQueryInformationProcess a)) a s.mem).1 ∧
      (Rpv.NtQueryInformationProcess env s a).state.mem =
        (env.callQuery (target env s (.NtQueryInformationProcess a)) a s.mem).2) ∧
    (∀ a : QueryArgs, a.piLen < 2 ^ 32 →
      target env s (.NtWow64QueryInformationProcess64 a) ≠ NULL →
      (Rpv.NtWow64QueryInformationProcess64 env s a).trace.filter Event.isCall =
        [Event.call (target env s (.NtWow64QueryInformationProcess64 a))
          [a.ph, a.piClass, a.pi, a.piLen, a.retLen]] ∧
      (Rpv.NtWow64QueryInformationProcess64 env s a).outcome = Outcome.returned
        (env.callQuery (target env s (.NtWow64QueryInformationProcess64 a)) a s.mem).1 ∧
      (Rpv.NtWow64QueryInformationProcess64 env s a).state.mem =
        (env.callQuery (target env s (.NtWow64QueryInformationProcess64 a)) a s.mem).2) ∧
    (∀ a : ReadArgs, a.BaseAddress < 2 ^ 64 → a.bufferLen < 2 ^ 64 →
      target env s (.NtWow64ReadVirtualMemory64 a) ≠ NULL →
      (Rpv.NtWow64ReadVirtualMemory64 env s a).trace.filter Event.isCall =
        [Event.call (target env s (.NtWow64ReadVirtualMemory64 a))
          [a.ph, a.BaseAddress, a.buffer, a.bufferLen, a.retLen]] ∧
      (Rpv.NtWow64ReadVirtualMemory64 env s a).outcome = Outcome.returned (DWORD_to_NTSTATUS
        (env.callRead (target env s (.NtWow64ReadVirtualMemory64 a)) a s.mem).1) ∧
      DWORD_to_NTSTATUS
          (env.callRead (target env s (.NtWow64ReadVirtualMemory64 a)) a s.mem).1 % 2 ^ 32 =
        (DWORD (env.callRead (target env s (.NtWow64ReadVirtualMemory64 a)) a s.mem).1 : Int) ∧
      (Rpv.NtWow64ReadVirtualMemory64 env s a).state.mem =
        (env.callRead (target env s (.NtWow64ReadVirtualMemory64 a)) a s.mem).2 ∧
      (Rpv.NtWow64ReadVirtualMemory64 env s a).state.mem a.retLen =
        (env.callRead (target env s (.NtWow64ReadVirtualMemory64 a)) a s.mem).2 a.retLen) := by
  refine ⟨fun a h hfn => ?_, fun a h hfn => ?_, fun a h1 h2 hfn => ?_⟩
  · have hp := queryArgs_passed_eq a h
    simp only [target, WrapperCall.wrapper, Wrapper.entry, Wrapper.symbol] at hfn ⊢
    simp only [Rpv.NtQueryInformationProcess, returnQuery, hp]
    split <;> simp_all [resolveTrace, Event.isCall, QueryArgs.toList]
  · have hp := queryArgs_passed_eq a h
    simp only [target, WrapperCall.wrapper, Wrapper.entry, Wrapper.symbol] at hfn ⊢
    simp only [Rpv.NtWow64QueryInformationProcess64, returnQuery, hp]
    split <;> simp_all [resolveTrace, Event.isCall, QueryArgs.toList]
  · have hp := readArgs_passed_eq a h1 h2
    have hm := DWORD_to_NTSTATUS_emod
      (env.callRead (target env s (.NtWow64ReadVirtualMemory64 a)) a s.mem).1
    refine ⟨?_, ?_, hm, ?_⟩
    all_goals
      simp only [target, WrapperCall.wrapper, Wrapper.entry, Wrapper.symbol] at hfn ⊢
      simp only [Rpv.NtWow64ReadVirtualMemory64, returnRead, hp]
      split <;> simp_all [resolveTrace, Event.isCall, ReadArgs.toList]

/-- C5 at a concrete read whose base address and length are `2 ^ 64 - 1`. -/
theorem C5_arguments_and_result_passed_through_witness :
    (Rpv.NtWow64ReadVirtualMemory64 sampleEnv initialState
        { ph := 4, BaseAddress := 2 ^ 64 - 1, buffer := 0x2000, bufferLen := 2 ^ 64 - 1,
          retLen := 0x3000 }).trace.filter Event.isCall =
      [Event.call 0x77000300 [4, 2 ^ 64 - 1, 0x2000, 2 ^ 64 - 1, 0x3000]] :=
  ((C5_arguments_and_result_passed_through sampleEnv initialState).2.2
    { ph := 4, BaseAddress := 2 ^ 64 - 1, buffer := 0x2000, bufferLen := 2 ^ 64 - 1,
      retLen := 0x3000 } (by decide) (by decide) (by decide)).1

/-- C10: for a `DWORD` value `d` returned by the resolved read primitive, the
wrapper returns `d` when `d < 2 ^ 31` and `d - 2 ^ 32` otherwise; this
conversion is injective on 32-bit values, lands in the signed 32-bit range
and reaches every value of it, is 0 exactly when `d` is 0 and negative
exactly when `d ≥ 0x80000000`. -/
theorem C10_dword_result_as_ntstatus (d : Nat) (hd : d < 2 ^ 32) :
    (∀ (env : Env) (s : State) (a : ReadArgs),
      target env s (.NtWow64ReadVirtualMemory64 a) ≠ NULL →
      (env.callRead (target env s (.NtWow64ReadVirtualMemory64 a)) a.passed s.mem).1 = d →
      (Rpv.NtWow64ReadVirtualMemory64 env s a).outcome =
        Outcome.returned (if d < 2 ^ 31 then (d : Int) else (d : Int) - 2 ^ 32)) ∧
    DWORD_to_NTSTATUS d = (if d < 2 ^ 31 then (d : Int) else (d : Int) - 2 ^ 32) ∧
    (∀ d' : Nat, d' < 2 ^ 32 → DWORD_to_NTSTATUS d = DWORD_to_NTSTATUS d' → d = d') ∧
    (-2 ^ 31 ≤ DWORD_to_NTSTATUS d ∧ DWORD_to_NTSTATUS d < 2 ^ 31) ∧
    (∀ z : Int, -2 ^ 31 ≤ z → z < 2 ^ 31 →
      ∃ d' : Nat, d' < 2 ^ 32 ∧ DWORD_to_NTSTATUS d' = z) ∧
    (DWORD_to_NTSTATUS d = 0 ↔ d = 0) ∧
    (DWORD_to_NTSTATUS d < 0 ↔ 2 ^ 31 ≤ d) := by
  have hconv : ∀ x : Nat, x < 2 ^ 32 →
      DWORD_to_NTSTATUS x = (if x < 2 ^ 31 then (x : Int) else (x : Int) - 2 ^ 32) := by
    intro x hx
    simp only [DWORD_to_NTSTATUS, DWORD, Nat.mod_eq_of_lt hx]
  refine ⟨?_, hconv d hd, ?_, ?_, ?_, ?_, ?_⟩
  · intro env s a hfn hres
    rw [← hconv d hd, ← hres]
    simp only [target, WrapperCall.wrapper, Wrapper.entry, Wrapper.symbol] at hfn ⊢
    simp only [Rpv.NtWow64ReadVirtualMemory64, returnRead]
    split <;> simp_all
  · intro d' hd' h
    rw [hconv d hd, hconv d' hd'] at h
    split at h <;> split at h <;> omega
  · rw [hconv d hd]; split <;> omega
  · intro z h1 h2
    by_cases hz : 0 ≤ z
    · refine ⟨z.toNat, by omega, ?_⟩
      rw [hconv _ (by omega)]
      split <;> omega
    · refine ⟨(z + 2 ^ 32).toNat, by omega, ?_⟩
      rw [hconv _ (by omega)]
      split <;> omega
  · rw [hconv d hd]; split <;> omega
  · rw [hconv d hd]; split <;> omega

/-- C10 at `STATUS_PARTIAL_COPY`, `0x8000000D`: the wrapper's status is
negative. -/
theorem C10_dword_result_as_ntstatus_witness :
    (0x8000000D : Nat) < 2 ^ 32 ∧ DWORD_to_NTSTATUS 0x8000000D = -2147483635 :=
  ⟨by decide, by
    have h := (C10_dword_result_as_ntstatus 0x8000000D (by decide)).2.1
    rw [h]; decide⟩

/-- C6: in `RTL_USER_PROCESS_PARAMETERS_WOW64`, for every pointer width,
`ImagePathName` is at offset 96 and `CommandLine` at offset 112, both of type
`UNICODE_STRING_WOW64`; that type is 16 bytes with the 2-byte `Length` at 0,
the 2-byte `MaximumLength` at 2 and the 8-byte `Buffer` at 8; so the
command-line buffer address is at offset 120, and the whole struct is 128
bytes. -/
theorem C6_process_parameters_layout (p : Nat) :
    RTL_USER_PROCESS_PARAMETERS_WOW64.offsetof p "ImagePathName" = some 96 ∧
    RTL_USER_PROCESS_PARAMETERS_WOW64.offsetof p "CommandLine" = some 112 ∧
    RTL_USER_PROCESS_PARAMETERS_WOW64.member "ImagePathName" = some UNICODE_STRING_WOW64 ∧
    RTL_USER_PROCESS_PARAMETERS_WOW64.member "CommandLine" = some UNICODE_STRING_WOW64 ∧
    UNICODE_STRING_WOW64.sizeof p = 16 ∧
    UNICODE_STRING_WOW64.offsetof p "Length" = some 0 ∧
    UNICODE_STRING_WOW64.member "Length" = some CType.USHORT ∧
    UNICODE_STRING_WOW64.offsetof p "MaximumLength" = some 2 ∧
    UNICODE_STRING_WOW64.member "MaximumLength" = some CType.USHORT ∧
    UNICODE_STRING_WOW64.offsetof p "Buffer" = some 8 ∧
    UNICODE_STRING_WOW64.member "Buffer" = some CType.ULONG64 ∧
    CType.USHORT.sizeof p = 2 ∧ CType.ULONG64.sizeof p = 8 ∧
    ((RTL_USER_PROCESS_PARAMETERS_WOW64.offsetof p "CommandLine").bind fun o =>
      (UNICODE_STRING_WOW64.offsetof p "Buffer").map fun b => o + b) = some 120 ∧
    RTL_USER_PROCESS_PARAMETERS_WOW64.sizeof p = 128 := by
  simp [RTL_USER_PROCESS_PARAMETERS_WOW64, UNICODE_STRING_WOW64, CType.offsetof, CType.member,
    Fields.offsetFrom, Fields.typeOf, CType.alignof, CType.sizeof, Fields.maxAlign,
    Fields.endFrom, alignUp]

/-- C7: in `PEB64`, for every pointer width, the 4 bytes of `Reserved1` are at
offset 0 and are followed by 4 bytes of padding, `Reserved2` occupies offsets
8 to 23, `LdrData` is at 24, the 8-byte `ProcessParameters` is at 32, and the
struct is 40 bytes, so its first 40 bytes contain `ProcessParameters`. -/
theorem C7_peb64_layout (p : Nat) :
    PEB64.offsetof p "Reserved1" = some 0 ∧
    (CType.array .BYTE 4).sizeof p = 4 ∧
    PEB64.offsetof p "Reserved2" = some (0 + 4 + 4) ∧
    (CType.array .ULONG64 2).sizeof p = 16 ∧
    PEB64.offsetof p "LdrData" = some 24 ∧
    PEB64.offsetof p "ProcessParameters" = some 32 ∧
    PEB64.member "ProcessParameters" = some CType.ULONG64 ∧
    CType.ULONG64.sizeof p = 8 ∧
    PEB64.sizeof p = 40 ∧
    (PEB64.offsetof p "ProcessParameters").map (fun o => o + CType.ULONG64.sizeof p)
      = some 40 := by
  simp [PEB64, CType.offsetof, CType.member, Fields.offsetFrom, Fields.typeOf, CType.alignof,
    CType.sizeof, Fields.maxAlign, Fields.endFrom, alignUp]

/-- C8: the last hop yields text only for a descriptor with
`Length ≤ MaximumLength` and a non-zero `Buffer`, reading exactly `Length`
bytes at `Buffer`; for a descriptor that violates either condition it issues
no read and fails with `MalformedDescriptorError`. -/
theorem C8_descriptor_validated (read : Nat → Nat → Except ExtractError (List Nat))
    (decode : List Nat → String) (d : StringDescriptor) :
    (∀ text, (readCommandLineText read decode d).result = .ok text →
      d.Length ≤ d.MaximumLength ∧ d.Buffer ≠ 0) ∧
    ((readCommandLineText read decode d).reads ≠ [] →
      d.Length ≤ d.MaximumLength ∧ d.Buffer ≠ 0 ∧
      (readCommandLineText read decode d).reads = [(d.Buffer, d.Length)]) ∧
    (¬ (d.Length ≤ d.MaximumLength ∧ d.Buffer ≠ 0) →
      (readCommandLineText read decode d).result = .error .MalformedDescriptorError ∧
      (readCommandLineText read decode d).reads = []) ∧
    (∀ bytes, d.Length ≤ d.MaximumLength → d.Buffer ≠ 0 →
      read d.Buffer d.Length = .ok bytes → bytes.length = d.Length →
      (readCommandLineText read decode d).result = .ok (decode bytes)) := by
  unfold readCommandLineText
  refine ⟨fun text h => ?_, fun h => ?_, fun h => ?_, fun bytes h1 h2 h3 h4 => ?_⟩
  · by_contra hv
    rw [if_neg hv] at h
    cases h
  · by_cases hv : d.Length ≤ d.MaximumLength ∧ d.Buffer ≠ 0
    · refine ⟨hv.1, hv.2, ?_⟩
      rw [if_pos hv]
      split
      · split <;> rfl
      · rfl
    · rw [if_neg hv] at h
      exact absurd rfl h
  · rw [if_neg h]
    exact ⟨rfl, rfl⟩
  · rw [if_pos ⟨h1, h2⟩, h3]
    simp [h4]

/-- C8 at a descriptor whose `Length` exceeds its `MaximumLength`. -/
theorem C8_descriptor_validated_witness :
    (readCommandLineText zeroReader sampleDecode ⟨10, 8, 0x1000⟩).result
      = .error .MalformedDescriptorError :=
  ((C8_descriptor_validated zeroReader sampleDecode ⟨10, 8, 0x1000⟩).2.2.1 (by decide)).1

/-- C9: in `PROCESS_BASIC_INFORMATION_WOW64`, for every pointer width, the
4-byte `ExitStatus` is at 0 and followed by 4 bytes of padding, the 8-byte
`PebBaseAddress` is at 8, `AffinityMask` at 16, `BasePriority` at 24,
`UniqueProcessId` at 32, `InheritedFromUniqueProcessId` at 40, and the struct
is 48 bytes. -/
theorem C9_basic_information_layout (p : Nat) :
    PROCESS_BASIC_INFORMATION_WOW64.offsetof p "ExitStatus" = some 0 ∧
    CType.NTSTATUS.sizeof p = 4 ∧
    CType.KPRIORITY.sizeof p = 4 ∧
    PROCESS_BASIC_INFORMATION_WOW64.offsetof p "PebBaseAddress" = some (0 + 4 + 4) ∧
    PROCESS_BASIC_INFORMATION_WOW64.member "PebBaseAddress" = some CType.ULONG64 ∧
    CType.ULONG64.sizeof p = 8 ∧
    CType.ULONG64.alignof p = 8 ∧
    PROCESS_BASIC_INFORMATION_WOW64.offsetof p "AffinityMask" = some 16 ∧
    PROCESS_BASIC_INFORMATION_WOW64.offsetof p "BasePriority" = some 24 ∧
    PROCESS_BASIC_INFORMATION_WOW64.offsetof p "UniqueProcessId" = some 32 ∧
    PROCESS_BASIC_INFORMATION_WOW64.offsetof p "InheritedFromUniqueProcessId" = some 40 ∧
    PROCESS_BASIC_INFORMATION_WOW64.sizeof p = 48 := by
  simp [PROCESS_BASIC_INFORMATION_WOW64, CType.offsetof, CType.member, Fields.offsetFrom,
    Fields.typeOf, CType.alignof, CType.sizeof, Fields.maxAlign, Fields.endFrom, alignUp]

/-- The layout function does depend on the pointer width where a pointer
occurs: the native-width descriptor is 8 bytes for 4-byte pointers and 16
bytes for 8-byte pointers. -/
theorem nativeStringDescriptor_sizeof :
    nativeStringDescriptor.sizeof 4 = 8 ∧ nativeStringDescriptor.sizeof 8 = 16 := by
  constructor <;> decide

end Rpv
